import Mathlib

/-!
# TaskFlow — verification of the schema, row-level policies and triggers

Shallow embedding of the TaskFlow repository's relational data model:
the SQL migration (tables, enums, row-level-security policies, trigger
functions) and the client-side write paths in `Dashboard.tsx` and the
admin panel.  Identities (UUIDs) are modelled as `Nat`, timestamps and
dates as `Nat`, tables as lists of row structures.
-/

namespace TaskFlow

/-- `app_role` enum: `('admin', 'user')`. -/
inductive AppRole
  | admin
  | user
deriving DecidableEq, Repr

/-- `task_priority` enum: `('low', 'medium', 'high', 'urgent')`. -/
inductive TaskPriority
  | low
  | medium
  | high
  | urgent
deriving DecidableEq, Repr

/-- `task_status` enum: `('pending', 'in_progress', 'completed', 'cancelled')`. -/
inductive TaskStatus
  | pending
  | inProgress
  | completed
  | cancelled
deriving DecidableEq, Repr

/-- A row of `public.profiles`. -/
structure ProfileRow where
  id : Nat
  display_name : Option String
  avatar_url : Option String
  bio : Option String
  created_at : Nat
  updated_at : Nat
deriving DecidableEq, Repr

/-- A row of `public.user_roles`. -/
structure UserRoleRow where
  id : Nat
  user_id : Nat
  role : AppRole
  created_at : Nat
deriving DecidableEq, Repr

/-- A row of `public.categories`. -/
structure CategoryRow where
  id : Nat
  user_id : Nat
  name : String
  color : String
  icon : Option String
  created_at : Nat
  updated_at : Nat
deriving DecidableEq, Repr

/-- A row of `public.tasks`. -/
structure TaskRow where
  id : Nat
  user_id : Nat
  category_id : Option Nat
  title : String
  description : Option String
  status : TaskStatus
  priority : TaskPriority
  due_date : Option Nat
  completed_at : Option Nat
  tags : List String
  is_starred : Bool
  sort_order : Int
  created_at : Nat
  updated_at : Nat
deriving DecidableEq, Repr

/-- A row of `public.subtasks`. -/
structure SubtaskRow where
  id : Nat
  task_id : Nat
  user_id : Nat
  title : String
  is_completed : Bool
  sort_order : Int
  created_at : Nat
  updated_at : Nat
deriving DecidableEq, Repr

/-- A row of `public.reminders`. -/
structure ReminderRow where
  id : Nat
  task_id : Nat
  user_id : Nat
  remind_at : Nat
  is_sent : Bool
  message : Option String
  created_at : Nat
deriving DecidableEq, Repr

/-- A row of `public.notifications`. -/
structure NotificationRow where
  id : Nat
  user_id : Nat
  title : String
  body : Option String
  type : String
  is_read : Bool
  task_id : Option Nat
  created_at : Nat
deriving DecidableEq, Repr

/-- A row of `public.analytics`. -/
structure AnalyticsRow where
  id : Nat
  user_id : Nat
  date : Nat
  tasks_created : Int
  tasks_completed : Int
  tasks_cancelled : Int
  focus_minutes : Int
  streak_days : Int
  created_at : Nat
deriving DecidableEq, Repr

/-- The database state: the seven application tables (plus `user_roles`). -/
structure DB where
  profiles : List ProfileRow
  user_roles : List UserRoleRow
  categories : List CategoryRow
  tasks : List TaskRow
  subtasks : List SubtaskRow
  reminders : List ReminderRow
  notifications : List NotificationRow
  analytics : List AnalyticsRow
deriving DecidableEq, Repr

/-- `public.has_role(_user_id, _role)`: `SELECT EXISTS (SELECT 1 FROM
public.user_roles WHERE user_id = _user_id AND role = _role)`.
`SECURITY DEFINER`: it reads the raw table, not a policy-filtered view,
and takes no requesting identity. -/
def has_role (roles : List UserRoleRow) (u : Nat) (r : AppRole) : Bool :=
  roles.any fun x => decide (x.user_id = u ∧ x.role = r)

/-- The four SQL commands gated by row-level-security policies. -/
inductive SqlOp
  | select
  | insert
  | update
  | delete
deriving DecidableEq, Repr

/-- The eight tables of the migration, all RLS-enabled. -/
inductive Table
  | profiles
  | userRoles
  | categories
  | tasks
  | subtasks
  | reminders
  | notifications
  | analytics
deriving DecidableEq, Repr

/-- Row-level-security decision: whether requester `uid` may perform `op`
on a row whose owner column is `owner`, given the `user_roles` table.
Each arm is the OR of the table's `CREATE POLICY` clauses:

* `profiles`: separate SELECT/UPDATE/INSERT policies `auth.uid() = id`;
  no DELETE policy.
* `user_roles`: "Users can view their own roles" (SELECT,
  `auth.uid() = user_id`) OR "Admins can manage all roles" (FOR ALL,
  `has_role(auth.uid(), 'admin')`).
* `categories`, `tasks`: "Users can CRUD their own" (FOR ALL,
  `auth.uid() = user_id`) OR "Admins can view all" (SELECT,
  `has_role(auth.uid(), 'admin')`).
* `subtasks`, `reminders`: "Users can CRUD their own" (FOR ALL) only.
* `notifications`: per-command owner policies for SELECT/UPDATE/DELETE
  and "System can insert notifications" (INSERT, `auth.uid() = user_id`).
* `analytics`: owner FOR ALL OR admin SELECT. -/
def allowed (t : Table) (op : SqlOp) (uid owner : Nat)
    (roles : List UserRoleRow) : Bool :=
  match t, op with
  | .profiles, .delete => false
  | .profiles, _ => decide (uid = owner)
  | .userRoles, .select => decide (uid = owner) || has_role roles uid .admin
  | .userRoles, _ => has_role roles uid .admin
  | .categories, .select => decide (uid = owner) || has_role roles uid .admin
  | .categories, _ => decide (uid = owner)
  | .tasks, .select => decide (uid = owner) || has_role roles uid .admin
  | .tasks, _ => decide (uid = owner)
  | .subtasks, _ => decide (uid = owner)
  | .reminders, _ => decide (uid = owner)
  | .notifications, _ => decide (uid = owner)
  | .analytics, .select => decide (uid = owner) || has_role roles uid .admin
  | .analytics, _ => decide (uid = owner)

/-- `split_part(email, '@', 1)`: the text before the first `@`
(the whole string when there is no `@`). -/
def emailLocalPart (email : String) : String :=
  ⟨email.data.takeWhile fun c => c ≠ '@'⟩

/-- The identity record the bootstrap trigger sees: `NEW` of
`auth.users`, with `raw_user_meta_data->>'display_name'`,
`->>'full_name'` and `->>'avatar_url'` as optional fields. -/
structure AuthUser where
  id : Nat
  email : String
  meta_display_name : Option String
  meta_full_name : Option String
  meta_avatar_url : Option String
deriving DecidableEq, Repr

/-- `COALESCE(NEW.raw_user_meta_data->>'display_name',
NEW.raw_user_meta_data->>'full_name', split_part(NEW.email, '@', 1))`. -/
def bootstrapDisplayName (u : AuthUser) : String :=
  match u.meta_display_name with
  | some d => d
  | none =>
    match u.meta_full_name with
    | some f => f
    | none => emailLocalPart u.email

/-- `public.handle_new_user()`: the AFTER-INSERT trigger on `auth.users`.
Inserts one `profiles` row (id = NEW.id, derived display name, metadata
avatar URL) and one `user_roles` row `(NEW.id, 'user')`.  `t` is `now()`
(the default for the timestamp columns) and `rid` the fresh
`gen_random_uuid()` for the role row's primary key. -/
def handle_new_user (db : DB) (u : AuthUser) (t rid : Nat) : DB :=
  { db with
    profiles := db.profiles ++
      [{ id := u.id
         display_name := some (bootstrapDisplayName u)
         avatar_url := u.meta_avatar_url
         bio := none
         created_at := t
         updated_at := t }]
    user_roles := db.user_roles ++
      [{ id := rid, user_id := u.id, role := .user, created_at := t }] }

/-- `public.update_updated_at_column()` applied to a `profiles` UPDATE:
the caller-supplied new row (`patch row`) has its `updated_at`
overwritten with `now()` (= `t`) by the BEFORE-UPDATE trigger. -/
def updateProfileRow (row : ProfileRow) (patch : ProfileRow → ProfileRow)
    (t : Nat) : ProfileRow :=
  { patch row with updated_at := t }

/-- `update_updated_at_column` on a `categories` UPDATE. -/
def updateCategoryRow (row : CategoryRow) (patch : CategoryRow → CategoryRow)
    (t : Nat) : CategoryRow :=
  { patch row with updated_at := t }

/-- `update_updated_at_column` on a `tasks` UPDATE. -/
def updateTaskRow (row : TaskRow) (patch : TaskRow → TaskRow)
    (t : Nat) : TaskRow :=
  { patch row with updated_at := t }

/-- `update_updated_at_column` on a `subtasks` UPDATE. -/
def updateSubtaskRow (row : SubtaskRow) (patch : SubtaskRow → SubtaskRow)
    (t : Nat) : SubtaskRow :=
  { patch row with updated_at := t }

/-- The form state `saveTask` reads in `Dashboard.tsx` (title, status,
priority, and the other payload fields). -/
structure TaskForm where
  title : String
  description : Option String
  status : TaskStatus
  priority : TaskPriority
  due_date : Option Nat
  category_id : Option Nat
  tags : List String
  is_starred : Bool
deriving DecidableEq, Repr

/-- The payload `saveTask` builds (Dashboard.tsx): in particular
`completed_at: status === "completed" ? new Date().toISOString() : null`,
where `t` is the current time. -/
def saveTaskPatch (form : TaskForm) (t : Nat) (row : TaskRow) : TaskRow :=
  { row with
    title := form.title
    description := form.description
    status := form.status
    priority := form.priority
    due_date := form.due_date
    category_id := form.category_id
    tags := form.tags
    is_starred := form.is_starred
    completed_at := if form.status = .completed then some t else none }

/-- `saveTask` in edit mode: `supabase.from("tasks").update(payload)`,
with the `updated_at` trigger firing. -/
def saveTaskUpdate (row : TaskRow) (form : TaskForm) (t : Nat) : TaskRow :=
  updateTaskRow row (saveTaskPatch form t) t

/-- `saveTask` in create mode:
`supabase.from("tasks").insert([{ ...payload, user_id: user.id }])`,
the remaining columns taking their schema defaults. -/
def saveTaskInsert (form : TaskForm) (uid t tid : Nat) : TaskRow :=
  saveTaskPatch form t
    { id := tid
      user_id := uid
      category_id := none
      title := ""
      description := none
      status := .pending
      priority := .medium
      due_date := none
      completed_at := none
      tags := []
      is_starred := false
      sort_order := 0
      created_at := t
      updated_at := t }

/-- `toggleStatus` in `Dashboard.tsx`: flips status between `completed`
and `pending`, setting `completed_at` to now exactly when the new status
is `completed`; the `updated_at` trigger fires. -/
def toggleStatus (row : TaskRow) (t : Nat) : TaskRow :=
  let newStatus : TaskStatus :=
    if row.status = .completed then .pending else .completed
  updateTaskRow row
    (fun r =>
      { r with
        status := newStatus
        completed_at := if newStatus = .completed then some t else none })
    t

/-- `toggleStar` in `Dashboard.tsx`: updates only `is_starred`
(the `updated_at` trigger still fires). -/
def toggleStar (row : TaskRow) (t : Nat) : TaskRow :=
  updateTaskRow row (fun r => { r with is_starred := !r.is_starred }) t

/-- The task invariant of the spec:
`status = completed ⟺ completed_at ≠ null`. -/
def completedAtInvariant (row : TaskRow) : Prop :=
  row.status = .completed ↔ row.completed_at ≠ none

instance (row : TaskRow) : Decidable (completedAtInvariant row) := by
  unfold completedAtInvariant; infer_instance

/-- Deleting a task (`supabase.from("tasks").delete().eq("id", tid)`)
with the schema's referential actions: `subtasks.task_id` and
`reminders.task_id` are `ON DELETE CASCADE`, `notifications.task_id` is
`ON DELETE SET NULL`. -/
def deleteTaskCascade (db : DB) (tid : Nat) : DB :=
  { db with
    tasks := db.tasks.filter fun x => x.id ≠ tid
    subtasks := db.subtasks.filter fun s => s.task_id ≠ tid
    reminders := db.reminders.filter fun r => r.task_id ≠ tid
    notifications := db.notifications.map fun n =>
      if n.task_id = some tid then { n with task_id := none } else n }

/-- Inserting into `public.analytics`, checking the `id` primary key and
the `UNIQUE (user_id, date)` constraint; on a violation the statement
fails and the stored rows are untouched. -/
def insertAnalytics (db : DB) (row : AnalyticsRow) : Except String DB :=
  if db.analytics.any (fun a => decide (a.id = row.id)) then
    .error "pk_violation"
  else if db.analytics.any
      (fun a => decide (a.user_id = row.user_id ∧ a.date = row.date)) then
    .error "unique_violation"
  else
    .ok { db with analytics := db.analytics ++ [row] }

/-- A SELECT on `categories` as requester `uid`: RLS acts as an implicit
row filter, so the result is the (always-succeeding) list of rows whose
select policy passes. -/
def selectCategories (uid : Nat) (roles : List UserRoleRow)
    (cats : List CategoryRow) : List CategoryRow :=
  cats.filter fun c => allowed .categories .select uid c.user_id roles

/-- `supabase.from("user_roles").upsert(row)` with no `onConflict`
option: PostgREST resolves conflicts on the primary key `id` only
(`ON CONFLICT (id) DO UPDATE`), so a clash on the separate
`UNIQUE (user_id, role)` constraint still aborts the statement. -/
def upsertUserRole (roles : List UserRoleRow) (row : UserRoleRow) :
    Except String (List UserRoleRow) :=
  if roles.any (fun x => decide (x.id = row.id)) then
    let merged := roles.map fun x =>
      if x.id = row.id then
        { x with user_id := row.user_id, role := row.role }
      else x
    if 2 ≤ merged.countP
        (fun x => decide (x.user_id = row.user_id ∧ x.role = row.role)) then
      .error "unique_violation"
    else
      .ok merged
  else if roles.any
      (fun x => decide (x.user_id = row.user_id ∧ x.role = row.role)) then
    .error "unique_violation"
  else
    .ok (roles ++ [row])

/-- `promoteToAdmin(userId)` in the admin panel:
`supabase.from("user_roles").upsert({ user_id: userId, role: "admin" })`.
`rid` is the generated primary key, `t` the `created_at` default. -/
def promoteToAdmin (roles : List UserRoleRow) (uid rid t : Nat) :
    Except String (List UserRoleRow) :=
  upsertUserRole roles { id := rid, user_id := uid, role := .admin, created_at := t }

/-! ### Concrete fixtures for instantiating the theorems -/

/-- An empty database state. -/
def emptyDB : DB :=
  { profiles := []
    user_roles := []
    categories := []
    tasks := []
    subtasks := []
    reminders := []
    notifications := []
    analytics := [] }

/-- A `user_roles` table in which identity 2 holds the `admin` role. -/
def adminRoles : List UserRoleRow :=
  [{ id := 0, user_id := 2, role := .admin, created_at := 0 }]

/-- The Category of the spec's scenario: identity 1 owns "Work" with
color `#f9a8d4`. -/
def workCategory : CategoryRow :=
  { id := 10, user_id := 1, name := "Work", color := "#f9a8d4"
    icon := some "folder", created_at := 0, updated_at := 0 }

/-- A sample pending task owned by identity 1 (satisfies the
completed-at invariant). -/
def sampleTask : TaskRow :=
  { id := 3, user_id := 1, category_id := none, title := "write report"
    description := none, status := .pending, priority := .medium
    due_date := none, completed_at := none, tags := [], is_starred := false
    sort_order := 0, created_at := 0, updated_at := 0 }

/-- A sample profile row owned by identity 1. -/
def sampleProfile : ProfileRow :=
  { id := 1, display_name := some "Ada", avatar_url := none, bio := none
    created_at := 0, updated_at := 0 }

/-- A sample category row owned by identity 1. -/
def sampleCategory : CategoryRow :=
  { id := 4, user_id := 1, name := "Home", color := "#f9a8d4"
    icon := some "folder", created_at := 0, updated_at := 0 }

/-- A sample subtask row. -/
def sampleSubtask : SubtaskRow :=
  { id := 5, task_id := 3, user_id := 1, title := "outline"
    is_completed := false, sort_order := 0, created_at := 0, updated_at := 0 }

/-- A sample task form with status `completed`. -/
def sampleForm : TaskForm :=
  { title := "write report", description := none, status := .completed
    priority := .high, due_date := none, category_id := none, tags := []
    is_starred := false }

/-- A sample auth user with no metadata (display name falls back to the
email local part). -/
def sampleUser : AuthUser :=
  { id := 9, email := "ada@example.com", meta_display_name := none
    meta_full_name := none, meta_avatar_url := none }

/-- A sample analytics row: identity 1, day 7. -/
def sampleAnalytics : AnalyticsRow :=
  { id := 0, user_id := 1, date := 7, tasks_created := 2
    tasks_completed := 1, tasks_cancelled := 0, focus_minutes := 30
    streak_days := 1, created_at := 0 }

/-! ### Theorems -/

/-- C1 (counterexample): the claim "admin access through that grant is
read-only, so an update or delete by a non-owner is always rejected"
fails on the `user_roles` table.  Identity 2 holds `admin` and is not
the owner of the role row owned by identity 1, yet the "Admins can
manage all roles" policy is `FOR ALL`, so the update is allowed. -/
theorem C1_admin_readonly_counterexample :
    (2 : Nat) ≠ 1 ∧
    allowed .userRoles .update 2 1 adminRoles = true ∧
    allowed .userRoles .delete 2 1 adminRoles = true := by
  decide

/-- C1 (amended): on every owned table other than `user_roles`, an
operation by a non-owner is allowed exactly when it is a select by an
admin on one of the three admin-readable tables (`categories`, `tasks`,
`analytics`); in particular non-owner inserts, updates and deletes are
always rejected there, and on `user_roles` itself non-admin non-owners
are still rejected for every operation. -/
theorem C1_non_owner_access (t : Table) (op : SqlOp) (uid owner : Nat)
    (roles : List UserRoleRow) (hne : uid ≠ owner) :
    (t ≠ .userRoles →
      (allowed t op uid owner roles = true ↔
        (op = .select ∧ has_role roles uid .admin = true ∧
          (t = .categories ∨ t = .tasks ∨ t = .analytics)))) ∧
    (has_role roles uid .admin = false →
      allowed .userRoles op uid owner roles = false) := by
  constructor
  · intro ht
    cases t <;> cases op <;> simp_all [allowed]
  · intro hadm
    cases op <;> simp_all [allowed]

/-- C1 witness: the amended statement instantiated at an admin
(identity 2) selecting a category owned by identity 1. -/
theorem C1_non_owner_access_witness :
    (2 : Nat) ≠ 1 ∧
    ((Table.categories ≠ .userRoles →
      (allowed .categories .select 2 1 adminRoles = true ↔
        (SqlOp.select = .select ∧ has_role adminRoles 2 .admin = true ∧
          (Table.categories = .categories ∨ Table.categories = .tasks ∨
            Table.categories = .analytics)))) ∧
    (has_role adminRoles 2 .admin = false →
      allowed .userRoles .select 2 1 adminRoles = false)) :=
  ⟨by decide, C1_non_owner_access .categories .select 2 1 adminRoles (by decide)⟩

/-- C3: `has_role(u, r)` returns true iff a `user_roles` row with
`user_id = u` and `role = r` exists.  It is a pure function of the raw
table (no writes), and being `SECURITY DEFINER` it takes no requesting
identity and is not filtered by the policies on `user_roles`. -/
theorem C3_has_role_spec (roles : List UserRoleRow) (u : Nat) (r : AppRole) :
    has_role roles u r = true ↔ ∃ x ∈ roles, x.user_id = u ∧ x.role = r := by
  simp [has_role, List.any_eq_true]

/-- C10: a non-admin identity can never insert, update or delete on
`user_roles` — no policy grants it, even on the identity's own rows —
so no non-admin can grant any role to anyone, including themselves. -/
theorem C10_non_admin_cannot_write_roles (uid owner : Nat)
    (roles : List UserRoleRow) (op : SqlOp)
    (hadm : has_role roles uid .admin = false) (hop : op ≠ .select) :
    allowed .userRoles op uid owner roles = false := by
  cases op <;> simp_all [allowed]

/-- C10 witness: identity 5 with no roles cannot even insert a role row
for itself. -/
theorem C10_non_admin_cannot_write_roles_witness :
    has_role ([] : List UserRoleRow) 5 .admin = false ∧
    SqlOp.insert ≠ SqlOp.select ∧
    allowed .userRoles .insert 5 5 [] = false :=
  ⟨by decide, by decide,
    C10_non_admin_cannot_write_roles 5 5 [] .insert (by decide) (by decide)⟩

/-- C7: once an analytics row with a given (owner, date) pair exists,
inserting a second row with the same pair (and a fresh primary key)
fails with a uniqueness violation; the error branch returns no new
state, so the stored rows are unchanged. -/
theorem C7_analytics_unique (db : DB) (row : AnalyticsRow)
    (hfresh : ∀ a ∈ db.analytics, a.id ≠ row.id)
    (hdup : ∃ a ∈ db.analytics, a.user_id = row.user_id ∧ a.date = row.date) :
    insertAnalytics db row = .error "unique_violation" := by
  have h1 : (db.analytics.any fun a => decide (a.id = row.id)) = false := by
    simp only [List.any_eq_false, decide_eq_true_eq]
    exact hfresh
  have h2 : (db.analytics.any
      fun a => decide (a.user_id = row.user_id ∧ a.date = row.date)) = true := by
    rw [List.any_eq_true]
    obtain ⟨a, ha, hu, hd⟩ := hdup
    exact ⟨a, ha, by simp [hu, hd]⟩
  unfold insertAnalytics
  rw [h1, h2]
  simp

/-- C7 witness: with identity 1's day-7 row stored, inserting a second
day-7 row for identity 1 under a fresh primary key fails. -/
theorem C7_analytics_unique_witness :
    (∀ a ∈ ({ emptyDB with analytics := [sampleAnalytics] } : DB).analytics,
      a.id ≠ ({ sampleAnalytics with id := 1 } : AnalyticsRow).id) ∧
    insertAnalytics { emptyDB with analytics := [sampleAnalytics] }
      { sampleAnalytics with id := 1 } = .error "unique_violation" :=
  ⟨by decide,
    C7_analytics_unique { emptyDB with analytics := [sampleAnalytics] }
      { sampleAnalytics with id := 1 } (by decide)
      ⟨sampleAnalytics, by decide, rfl, rfl⟩⟩

/-- C2: the bootstrap trigger appends exactly one profile row with
id = the new identity's id — display name being the first non-null of
metadata display name, metadata full name, and the email local part —
and exactly one `(id, user)` role row, touching no other table.  Under
the freshness of the new identity, exactly one profile row with that id
and one such role row exist afterwards. -/
theorem C2_bootstrap (db : DB) (u : AuthUser) (t rid : Nat)
    (hp : ∀ p ∈ db.profiles, p.id ≠ u.id)
    (hr : ∀ x ∈ db.user_roles, ¬(x.user_id = u.id ∧ x.role = .user)) :
    (handle_new_user db u t rid).profiles =
      db.profiles ++
        [{ id := u.id, display_name := some (bootstrapDisplayName u)
           avatar_url := u.meta_avatar_url, bio := none
           created_at := t, updated_at := t }] ∧
    (handle_new_user db u t rid).user_roles =
      db.user_roles ++ [{ id := rid, user_id := u.id, role := .user, created_at := t }] ∧
    ((handle_new_user db u t rid).profiles.countP
      fun p => decide (p.id = u.id)) = 1 ∧
    ((handle_new_user db u t rid).user_roles.countP
      fun x => decide (x.user_id = u.id ∧ x.role = AppRole.user)) = 1 ∧
    (∀ d, u.meta_display_name = some d → bootstrapDisplayName u = d) ∧
    (∀ f, u.meta_display_name = none → u.meta_full_name = some f →
      bootstrapDisplayName u = f) ∧
    (u.meta_display_name = none → u.meta_full_name = none →
      bootstrapDisplayName u = emailLocalPart u.email) ∧
    (handle_new_user db u t rid).categories = db.categories ∧
    (handle_new_user db u t rid).tasks = db.tasks ∧
    (handle_new_user db u t rid).subtasks = db.subtasks ∧
    (handle_new_user db u t rid).reminders = db.reminders ∧
    (handle_new_user db u t rid).notifications = db.notifications ∧
    (handle_new_user db u t rid).analytics = db.analytics := by
  have hcp : (db.profiles.countP fun p => decide (p.id = u.id)) = 0 := by
    rw [List.countP_eq_zero]
    intro p hpm
    simpa using hp p hpm
  have hcr : (db.user_roles.countP
      fun x => decide (x.user_id = u.id ∧ x.role = AppRole.user)) = 0 := by
    rw [List.countP_eq_zero]
    intro x hxm
    simpa using hr x hxm
  refine ⟨rfl, rfl, ?_, ?_, ?_, ?_, ?_, rfl, rfl, rfl, rfl, rfl, rfl⟩
  · simp [handle_new_user, List.countP_append, hcp, List.countP_cons]
  · simp only [handle_new_user, List.countP_append, hcr, List.countP_cons]
    simp
  · intro d hd
    simp [bootstrapDisplayName, hd]
  · intro f hd hf
    simp [bootstrapDisplayName, hd, hf]
  · intro hd hf
    simp [bootstrapDisplayName, hd, hf]

/-- C2 witness: bootstrapping identity 9 (no metadata, email
`ada@example.com`) into the empty database. -/
theorem C2_bootstrap_witness :
    (∀ p ∈ emptyDB.profiles, p.id ≠ sampleUser.id) ∧
    (handle_new_user emptyDB sampleUser 4 1).profiles =
      emptyDB.profiles ++
        [{ id := sampleUser.id
           display_name := some (bootstrapDisplayName sampleUser)
           avatar_url := sampleUser.meta_avatar_url, bio := none
           created_at := 4, updated_at := 4 }] ∧
    ((handle_new_user emptyDB sampleUser 4 1).user_roles.countP
      fun x => decide (x.user_id = sampleUser.id ∧ x.role = AppRole.user)) = 1 ∧
    bootstrapDisplayName sampleUser = "ada" := by
  have h := C2_bootstrap emptyDB sampleUser 4 1 (by decide)
    (by intro x hx; simp [emptyDB] at hx)
  exact ⟨by decide, h.1, h.2.2.2.1, by decide⟩

/-- C4: the BEFORE-UPDATE trigger overwrites `updated_at` with the
update time on all four trigger-attached tables (Profile, Category,
Task, Subtask), whatever value the caller's patch supplied; hence, with
a monotone clock, a task's `updated_at` never decreases across an
update. -/
theorem C4_timestamp_touch (p : ProfileRow) (fp : ProfileRow → ProfileRow)
    (c : CategoryRow) (fc : CategoryRow → CategoryRow)
    (tk : TaskRow) (ft : TaskRow → TaskRow)
    (s : SubtaskRow) (fs : SubtaskRow → SubtaskRow) (t : Nat)
    (hclock : tk.updated_at ≤ t) :
    (updateProfileRow p fp t).updated_at = t ∧
    (updateCategoryRow c fc t).updated_at = t ∧
    (updateTaskRow tk ft t).updated_at = t ∧
    (updateSubtaskRow s fs t).updated_at = t ∧
    tk.updated_at ≤ (updateTaskRow tk ft t).updated_at := by
  exact ⟨rfl, rfl, rfl, rfl, by simpa [updateTaskRow] using hclock⟩

/-- C4 witness: updating the sample rows at time 5 with a patch that
tries to force `updated_at` back to 0 still lands on 5. -/
theorem C4_timestamp_touch_witness :
    sampleTask.updated_at ≤ 5 ∧
    ((updateProfileRow sampleProfile (fun r => { r with updated_at := 0 }) 5).updated_at = 5 ∧
     (updateCategoryRow sampleCategory (fun r => { r with updated_at := 0 }) 5).updated_at = 5 ∧
     (updateTaskRow sampleTask (fun r => { r with updated_at := 0 }) 5).updated_at = 5 ∧
     (updateSubtaskRow sampleSubtask (fun r => { r with updated_at := 0 }) 5).updated_at = 5 ∧
     sampleTask.updated_at ≤
       (updateTaskRow sampleTask (fun r => { r with updated_at := 0 }) 5).updated_at) :=
  ⟨by decide,
    C4_timestamp_touch sampleProfile (fun r => { r with updated_at := 0 })
      sampleCategory (fun r => { r with updated_at := 0 })
      sampleTask (fun r => { r with updated_at := 0 })
      sampleSubtask (fun r => { r with updated_at := 0 }) 5 (by decide)⟩

/-- C5: every application write path establishes or preserves the
invariant `status = completed ⟺ completed_at ≠ null`: `saveTask`
(insert and update) and `toggleStatus` set `completed_at` to the write
time exactly when they set status `completed` and to null otherwise,
and `toggleStar` — the only other task update — preserves the
invariant. -/
theorem C5_completed_at_invariant (row : TaskRow) (form : TaskForm)
    (uid t tid : Nat) (hinv : completedAtInvariant row) :
    completedAtInvariant (saveTaskUpdate row form t) ∧
    completedAtInvariant (saveTaskInsert form uid t tid) ∧
    completedAtInvariant (toggleStatus row t) ∧
    completedAtInvariant (toggleStar row t) ∧
    ((saveTaskUpdate row form t).status = .completed →
      (saveTaskUpdate row form t).completed_at = some t) ∧
    ((saveTaskUpdate row form t).status ≠ .completed →
      (saveTaskUpdate row form t).completed_at = none) ∧
    ((toggleStatus row t).status = .completed →
      (toggleStatus row t).completed_at = some t) ∧
    ((toggleStatus row t).status ≠ .completed →
      (toggleStatus row t).completed_at = none) := by
  unfold completedAtInvariant at hinv ⊢
  unfold saveTaskUpdate saveTaskInsert toggleStatus
    toggleStar updateTaskRow saveTaskPatch
  by_cases hf : form.status = .completed <;>
    by_cases hs : row.status = .completed <;>
      simp_all

/-- C5 witness: the sample pending task, completed through the form. -/
theorem C5_completed_at_invariant_witness :
    completedAtInvariant sampleTask ∧
    completedAtInvariant (saveTaskUpdate sampleTask sampleForm 6) ∧
    completedAtInvariant (toggleStatus sampleTask 6) ∧
    ((toggleStatus sampleTask 6).status = .completed →
      (toggleStatus sampleTask 6).completed_at = some 6) :=
  ⟨by decide,
    (C5_completed_at_invariant sampleTask sampleForm 1 6 3 (by decide)).1,
    (C5_completed_at_invariant sampleTask sampleForm 1 6 3 (by decide)).2.2.1,
    (C5_completed_at_invariant sampleTask sampleForm 1 6 3 (by decide)).2.2.2.2.2.2.1⟩

/-- C6: deleting a task removes exactly the subtasks and reminders
referencing it (`ON DELETE CASCADE`), removes the task itself, and keeps
every notification row — same count, every field unchanged — except that
a task reference equal to the deleted task is set to null
(`ON DELETE SET NULL`); the other tables are untouched. -/
theorem C6_delete_task_cascade (db : DB) (tid : Nat) :
    (∀ s, s ∈ (deleteTaskCascade db tid).subtasks ↔
      s ∈ db.subtasks ∧ s.task_id ≠ tid) ∧
    (∀ r, r ∈ (deleteTaskCascade db tid).reminders ↔
      r ∈ db.reminders ∧ r.task_id ≠ tid) ∧
    (∀ x, x ∈ (deleteTaskCascade db tid).tasks ↔
      x ∈ db.tasks ∧ x.id ≠ tid) ∧
    (deleteTaskCascade db tid).notifications.length =
      db.notifications.length ∧
    (∀ n ∈ db.notifications, ∃ n' ∈ (deleteTaskCascade db tid).notifications,
      n'.id = n.id ∧ n'.user_id = n.user_id ∧ n'.title = n.title ∧
      n'.body = n.body ∧ n'.type = n.type ∧ n'.is_read = n.is_read ∧
      n'.created_at = n.created_at ∧
      n'.task_id = if n.task_id = some tid then none else n.task_id) ∧
    (∀ n ∈ (deleteTaskCascade db tid).notifications, n.task_id ≠ some tid) ∧
    (deleteTaskCascade db tid).profiles = db.profiles ∧
    (deleteTaskCascade db tid).user_roles = db.user_roles ∧
    (deleteTaskCascade db tid).categories = db.categories ∧
    (deleteTaskCascade db tid).analytics = db.analytics := by
  refine ⟨?_, ?_, ?_, ?_, ?_, ?_, rfl, rfl, rfl, rfl⟩
  · intro s
    simp [deleteTaskCascade, List.mem_filter, and_comm]
  · intro r
    simp [deleteTaskCascade, List.mem_filter, and_comm]
  · intro x
    simp [deleteTaskCascade, List.mem_filter, and_comm]
  · simp [deleteTaskCascade]
  · intro n hn
    refine ⟨if n.task_id = some tid then { n with task_id := none } else n,
      List.mem_map_of_mem _ hn, ?_⟩
    by_cases h : n.task_id = some tid <;> simp [h]
  · intro n hn
    simp only [deleteTaskCascade, List.mem_map] at hn
    obtain ⟨m, _, hm⟩ := hn
    by_cases h : m.task_id = some tid
    · simp [h] at hm
      simp [← hm]
    · simp [h] at hm
      simp [← hm, h]

/-- C8: row-level policies act as implicit filters on select: a category
row invisible to the requester is simply absent from the (always
succeeding) result, indistinguishable from the row not existing.  In
the spec's scenario, u1's "Work" category yields zero rows to u2 and
exactly its one row to u1. -/
theorem C8_invisible_rows_empty (uid : Nat) (roles : List UserRoleRow)
    (cs₁ cs₂ : List CategoryRow) (r : CategoryRow)
    (hexc : allowed .categories .select uid r.user_id roles = false) :
    selectCategories uid roles (cs₁ ++ r :: cs₂) =
      selectCategories uid roles (cs₁ ++ cs₂) ∧
    selectCategories 2 [] [workCategory] = [] ∧
    selectCategories 1 [] [workCategory] = [workCategory] ∧
    workCategory.name = "Work" ∧ workCategory.color = "#f9a8d4" := by
  refine ⟨?_, by decide, by decide, by decide, by decide⟩
  simp [selectCategories, List.filter_append, List.filter_cons, hexc]

/-- C8 witness: requester 2 (no roles) cannot see identity 1's
category, so inserting it anywhere in the table leaves 2's view
unchanged. -/
theorem C8_invisible_rows_empty_witness :
    allowed .categories .select 2 1 [] = false ∧
    selectCategories 2 [] ([] ++ workCategory :: []) =
      selectCategories 2 [] ([] ++ []) :=
  ⟨by decide,
    (C8_invisible_rows_empty 2 [] [] [] workCategory (by decide)).1⟩

/-- C9: `promoteToAdmin(u)` is additive.  The upsert resolves conflicts
only on the generated primary key, so with a fresh key and no existing
`(u, admin)` row it appends one `(u, admin)` row, leaving every
existing role row in place; afterwards `has_role(u, user)` and
`has_role(u, admin)` both hold. -/
theorem C9_promote_additive (roles : List UserRoleRow) (uid rid t : Nat)
    (hfresh : ∀ x ∈ roles, x.id ≠ rid)
    (hnadm : has_role roles uid .admin = false)
    (huser : has_role roles uid .user = true) :
    promoteToAdmin roles uid rid t =
      .ok (roles ++ [{ id := rid, user_id := uid, role := .admin, created_at := t }]) ∧
    has_role (roles ++ [{ id := rid, user_id := uid, role := .admin, created_at := t }])
      uid .admin = true ∧
    has_role (roles ++ [{ id := rid, user_id := uid, role := .admin, created_at := t }])
      uid .user = true := by
  have h1 : (roles.any fun x => decide (x.id = rid)) = false := by
    simp only [List.any_eq_false, decide_eq_true_eq]
    exact hfresh
  refine ⟨?_, ?_, ?_⟩
  · unfold promoteToAdmin upsertUserRole
    rw [h1]
    simp only [Bool.false_eq_true, if_false]
    rw [show (roles.any fun x =>
      decide (x.user_id = uid ∧ x.role = AppRole.admin)) = false from hnadm]
    simp
  · simp [has_role, List.any_append]
  · unfold has_role at huser ⊢
    rw [List.any_append, huser]
    simp

/-- C9 witness: identity 7 holds only `user`; promotion appends the
admin row and both role checks then succeed. -/
theorem C9_promote_additive_witness :
    has_role [{ id := 0, user_id := 7, role := .user, created_at := 0 }] 7 .admin = false ∧
    promoteToAdmin [{ id := 0, user_id := 7, role := .user, created_at := 0 }] 7 1 2 =
      .ok [{ id := 0, user_id := 7, role := .user, created_at := 0 },
           { id := 1, user_id := 7, role := .admin, created_at := 2 }] ∧
    has_role [{ id := 0, user_id := 7, role := .user, created_at := 0 },
              { id := 1, user_id := 7, role := .admin, created_at := 2 }] 7 .user = true :=
  ⟨by decide,
    (C9_promote_additive [{ id := 0, user_id := 7, role := .user, created_at := 0 }]
      7 1 2 (by decide) (by decide) (by decide)).1,
    (C9_promote_additive [{ id := 0, user_id := 7, role := .user, created_at := 0 }]
      7 1 2 (by decide) (by decide) (by decide)).2.2⟩

end TaskFlow
